import Mathlib

/-!
Shallow embedding of the background service worker of the Trace browser
extension (src/background.js, the current revision starting at the module
header "Background script for Chrome Extension" with importScripts).
The embedding models the Session Store (in-memory authToken / currentUser
plus the durable chrome.storage.local keys), the message Router dispatch,
and the backend-calling handlers with their single 401-driven retry.

Conventions:
  - A JavaScript value that is a string-or-null/undefined is `Option String`;
    `none` models null/undefined or an absent JSON field.  JS truthiness of
    such a value is `jsTruthy`.
  - Network and storage effects are passed in explicitly as environment
    values (the response each fetch would produce, whether a storage read or
    write succeeds); a handler is a pure function of its request, its
    environment and the worker state, returning the new state, the value
    passed to sendResponse (if any), the header lists of the network calls
    it made, and how many times it reloaded state from durable storage.
  - `chrome.storage.local.set` drops keys whose value is undefined; the
    model reflects that where a possibly-absent field is written.
-/

namespace Trace

/-- JS truthiness of a string-or-null/undefined value: null, undefined and
the empty string are falsy; every other string is truthy. -/
def jsTruthy : Option String → Bool
  | none => false
  | some s => s != ""

/-- Whether `pat` occurs as a contiguous sublist, checked at every suffix. -/
def listContainsSub (pat : List Char) : List Char → Bool
  | [] => pat.isEmpty
  | c :: rest => pat.isPrefixOf (c :: rest) || listContainsSub pat rest

/-- JS `String.prototype.includes`: substring occurrence (the empty pattern
occurs in every string, as in JS). -/
def jsIncludes (s pat : String) : Bool :=
  listContainsSub pat.data s.data

/-- JS `text.substring(0, n)` (code-point based in the model). -/
def substrTo (s : String) (n : Nat) : String := String.mk (s.data.take n)

/-- JS `a || b` for a string-valued `a` that may be absent: the left value
when it is truthy (present and non-empty), otherwise the default. -/
def jsOrElse (a : Option String) (b : String) : String :=
  match a with
  | some s => if s == "" then b else s
  | none => b

/-- `response.ok`: status in the 2xx range. -/
def httpOk (status : Nat) : Bool :=
  200 ≤ status && status ≤ 299

/-- The guard `!contentType || !contentType.includes('application/json')`
from the summarize handlers: a missing (or empty, hence falsy) Content-Type
header, or one not mentioning application/json, is treated as non-JSON. -/
def contentTypeJson : Option String → Bool
  | none => false
  | some s => jsIncludes s "application/json"

/-- The user record stored in `currentUser` (shape of `data.user`). -/
structure UserRec where
  id : Nat
  email : String
  name : String
deriving DecidableEq, Repr

/-- The durable chrome.storage.local keys this worker reads and writes.
`none` means the key is absent from storage. -/
structure StorageState where
  extensionEnabled : Option Bool
  authToken : Option String
  currentUser : Option UserRec
  summaryStyle : Option String
  autoSummarizeEnabled : Option Bool
  notificationsEnabled : Option Bool
deriving DecidableEq, Repr

/-- The value stored per tab in the `pageTitles` map. -/
structure PageTitleEntry where
  title : String
  url : String
  timestamp : Nat
deriving DecidableEq, Repr

/-- The worker's module-level mutable state (extensionEnabled, pageTitles,
authToken, currentUser) together with the durable storage it talks to. -/
structure BgState where
  extensionEnabled : Bool
  pageTitles : List (Nat × PageTitleEntry)
  authToken : Option String
  currentUser : Option UserRec
  storage : StorageState
deriving DecidableEq, Repr

/-- The worker state at first install: defaults in memory, empty storage. -/
def initBgState : BgState :=
  { extensionEnabled := true
    pageTitles := []
    authToken := none
    currentUser := none
    storage := ⟨none, none, none, none, none, none⟩ }

/-- Outcome of the `chrome.storage.local.get` read inside
`initializeExtensionState`: it either yields the stored values or throws
(the error value itself is only logged by the code). -/
inductive StorageReadOutcome where
  | ok
  | failure (msg : String)
deriving DecidableEq, Repr

/-- `initializeExtensionState` (src/background.js): on a successful read,
`extensionEnabled = result.extensionEnabled !== false` (default true),
`authToken` and `currentUser` are taken verbatim from storage; if the read
throws, the catch block installs the safe defaults (enabled, logged out)
and the exception does not propagate (the model is a total function). -/
def initializeExtensionState (read : StorageReadOutcome) (s : BgState) : BgState :=
  match read with
  | .ok =>
      { s with
        extensionEnabled := s.storage.extensionEnabled != some false
        authToken := s.storage.authToken
        currentUser := s.storage.currentUser }
  | .failure _ =>
      { s with extensionEnabled := true, authToken := none, currentUser := none }

/-! ## Session-mutating operations (authenticate, logout, checkAuth) -/

/-- The token/user pair of a successful backend auth response (`data.token`,
`data.user`); either field may be absent from the JSON. -/
structure AuthSuccessData where
  token : Option String
  user : Option UserRec
deriving DecidableEq, Repr

/-- How one run of `authenticateWithGoogle` can go, as far as the session
fields are concerned.  All failure paths before the state assignments leave
the session untouched.  `success` carries the backend response data and
whether the subsequent `chrome.storage.local.set` write completed. -/
inductive GoogleAuthOutcome where
  | identityFailure
  | userInfoFailure
  | backendNotOk
  | networkError
  | success (data : AuthSuccessData) (storeOk : Bool)
deriving DecidableEq, Repr

/-- Session effect of `authenticateWithGoogle`: on success the in-memory
fields are assigned `data.token` / `data.user` first; the storage write then
persists them (keys whose value is undefined are dropped by
chrome.storage.local.set, leaving the old stored value).  If the storage
write throws, the catch block responds with an error but the in-memory
assignment has already happened. -/
def authenticateWithGoogle (o : GoogleAuthOutcome) (s : BgState) : BgState :=
  match o with
  | .success d storeOk =>
      let s1 := { s with authToken := d.token, currentUser := d.user }
      if storeOk then
        { s1 with storage :=
            { s1.storage with
              authToken := match d.token with
                | some t => some t
                | none => s.storage.authToken
              currentUser := match d.user with
                | some u => some u
                | none => s.storage.currentUser } }
      else s1
  | _ => s

/-- Session effect of `logout`: the in-memory fields are nulled first, then
`chrome.storage.local.remove(['authToken','currentUser'])` runs; if that
remove throws, the outer catch responds with an error but memory is already
cleared.  Token revocation does not touch the session fields. -/
def logout (removeOk : Bool) (s : BgState) : BgState :=
  let s1 := { s with authToken := none, currentUser := none }
  if removeOk then
    { s1 with storage := { s1.storage with authToken := none, currentUser := none } }
  else s1

/-- How the verify call inside `checkAuthStatus` can go: the fetch may
throw, return a non-ok status, or return ok JSON whose `user` field may be
absent; `storeOk` is whether the follow-up storage write completed. -/
inductive VerifyOutcome where
  | networkError
  | httpNotOk (removeOk : Bool)
  | ok (user : Option UserRec) (storeOk : Bool)
deriving DecidableEq, Repr

/-- Session effect of `checkAuthStatus`: the guard
`if (!authToken || !currentUser)` responds not-authenticated without any
call (truthiness: an empty-string token is falsy).  On an ok response,
`currentUser = data.user` is assigned, then the storage write persists it
(dropped if the value is undefined).  On a non-ok response both fields are
cleared in memory and removed from storage.  A thrown fetch leaves the
session unchanged. -/
def checkAuthStatus (o : VerifyOutcome) (s : BgState) : BgState :=
  if ¬ (jsTruthy s.authToken = true) ∨ s.currentUser = none then s
  else
    match o with
    | .networkError => s
    | .httpNotOk removeOk =>
        let s1 := { s with authToken := none, currentUser := none }
        if removeOk then
          { s1 with storage := { s1.storage with authToken := none, currentUser := none } }
        else s1
    | .ok u storeOk =>
        let s1 := { s with currentUser := u }
        if storeOk then
          { s1 with storage :=
              { s1.storage with currentUser := match u with
                  | some usr => some usr
                  | none => s.storage.currentUser } }
        else s1

/-- One session-mutating operation together with the environment response
it encountered. -/
inductive SessionOp where
  | init (read : StorageReadOutcome)
  | googleAuth (o : GoogleAuthOutcome)
  | logoutOp (removeOk : Bool)
  | checkAuth (o : VerifyOutcome)
deriving DecidableEq, Repr

/-- Apply one session-mutating operation to the worker state. -/
def sessionStep (s : BgState) (op : SessionOp) : BgState :=
  match op with
  | .init r => initializeExtensionState r s
  | .googleAuth o => authenticateWithGoogle o s
  | .logoutOp removeOk => logout removeOk s
  | .checkAuth o => checkAuthStatus o s

/-- Run a sequence of session-mutating operations from a starting state. -/
def runOps (s : BgState) (ops : List SessionOp) : BgState :=
  ops.foldl sessionStep s

/-- The Session Store invariant of spec section 3: the token and the user
record are both present or both absent, in memory and in durable storage. -/
def sessionInv (s : BgState) : Prop :=
  (s.authToken = none ↔ s.currentUser = none) ∧
  (s.storage.authToken = none ↔ s.storage.currentUser = none)

instance (s : BgState) : Decidable (sessionInv s) := by
  unfold sessionInv; infer_instance

/-- Strengthened induction invariant: additionally, whenever a token is in
memory there is also one in durable storage (needed because `checkAuthStatus`
writes only `currentUser` back to storage on a successful verify). -/
def sessionInvStrong (s : BgState) : Prop :=
  sessionInv s ∧ (s.authToken ≠ none → s.storage.authToken ≠ none)

/-- Well-formedness of the environment responses an operation consumed:
a successful auth response carries both a token and a user and its storage
write completes, and a successful verify response carries a user.  All other
operations and outcomes are unconstrained. -/
def wellFormed : SessionOp → Prop
  | .googleAuth (.success d storeOk) =>
      d.token ≠ none ∧ d.user ≠ none ∧ storeOk = true
  | .checkAuth (.ok u _) => u ≠ none
  | _ => True

theorem sessionStep_preserves_strong (s : BgState) (op : SessionOp)
    (hs : sessionInvStrong s) (hop : wellFormed op) :
    sessionInvStrong (sessionStep s op) := by
  obtain ⟨⟨hm, hd⟩, hlink⟩ := hs
  cases op with
  | init r =>
      cases r with
      | ok =>
          refine ⟨⟨?_, hd⟩, ?_⟩ <;>
            simp_all [sessionStep, initializeExtensionState]
      | failure m =>
          refine ⟨⟨?_, hd⟩, ?_⟩ <;>
            simp [sessionStep, initializeExtensionState]
  | googleAuth o =>
      cases o with
      | success d storeOk =>
          obtain ⟨ht, hu, hst⟩ := hop
          obtain ⟨t, ht2⟩ := Option.ne_none_iff_exists'.mp ht
          obtain ⟨u, hu2⟩ := Option.ne_none_iff_exists'.mp hu
          subst hst
          simp [sessionStep, authenticateWithGoogle, sessionInvStrong, sessionInv,
            ht2, hu2]
      | identityFailure => exact ⟨⟨hm, hd⟩, hlink⟩
      | userInfoFailure => exact ⟨⟨hm, hd⟩, hlink⟩
      | backendNotOk => exact ⟨⟨hm, hd⟩, hlink⟩
      | networkError => exact ⟨⟨hm, hd⟩, hlink⟩
  | logoutOp removeOk =>
      cases removeOk <;>
        simp_all [sessionStep, logout, sessionInvStrong, sessionInv]
  | checkAuth o =>
      by_cases hguard : ¬ (jsTruthy s.authToken = true) ∨ s.currentUser = none
      · have hstep : sessionStep s (.checkAuth o) = checkAuthStatus o s := rfl
        have : checkAuthStatus o s = s := by
          unfold checkAuthStatus; rw [if_pos hguard]
        rw [hstep, this]; exact ⟨⟨hm, hd⟩, hlink⟩
      · push_neg at hguard
        obtain ⟨htok, husr⟩ := hguard
        have htok' : s.authToken ≠ none := by
          intro h; rw [h] at htok; simp [jsTruthy] at htok
        have hstok : s.storage.authToken ≠ none := hlink htok'
        cases o with
        | networkError =>
            have : sessionStep s (.checkAuth .networkError) = s := by
              simp [sessionStep, checkAuthStatus, htok, husr]
            rw [this]; exact ⟨⟨hm, hd⟩, hlink⟩
        | httpNotOk removeOk =>
            cases removeOk <;>
              simp_all [sessionStep, checkAuthStatus, sessionInvStrong, sessionInv]
        | ok u storeOk =>
            obtain ⟨uu, rfl⟩ := Option.ne_none_iff_exists'.mp hop
            cases storeOk <;>
              simp_all [sessionStep, checkAuthStatus, sessionInvStrong, sessionInv]

theorem runOps_preserves_strong (ops : List SessionOp) (s : BgState)
    (hs : sessionInvStrong s) (hops : ∀ op ∈ ops, wellFormed op) :
    sessionInvStrong (runOps s ops) := by
  induction ops generalizing s with
  | nil => exact hs
  | cons op rest ih =>
      exact ih (sessionStep s op)
        (sessionStep_preserves_strong s op hs (hops op (by simp)))
        (fun o ho => hops o (by simp [ho]))

/-! ## Backend Gateway calls: fetch outcomes and handler traces -/

/-- Result of attempting `await response.json()`: the parsed body, or the
message of the SyntaxError the rejected promise carries. -/
inductive JsonParse (β : Type) where
  | ok (body : β)
  | failed (msg : String)
deriving DecidableEq, Repr

/-- Outcome of one `fetch`: the promise rejects with an error whose
`.message` is `msg`, or a response arrives with a status, an optional
Content-Type header, the raw body text, and the body's JSON parse. -/
inductive FetchOutcome (β : Type) where
  | networkError (msg : String)
  | response (status : Nat) (contentType : Option String) (bodyText : String)
      (bodyJson : JsonParse β)
deriving DecidableEq, Repr

/-- The JSON body shape consumed by the summarize handlers:
`error`, `summary`, `summary_data`, `is_article`, each possibly absent. -/
structure SummarizeBody where
  error : Option String
  summary : Option String
  summary_data : Option String
  is_article : Option Bool
deriving DecidableEq, Repr

/-- The object passed to sendResponse by the summarize handlers. -/
structure SummarizeResponse where
  success : Bool
  error : Option String
  summary : Option String
  summary_data : Option String
  is_article : Option Bool
deriving DecidableEq, Repr

/-- A sendResponse error object carrying only `success: false` and `error`,
as produced outside the try/catch (no CORS rewording applied). -/
def summarizePlainFail (msg : String) : SummarizeResponse :=
  { success := false, error := some msg
    summary := none, summary_data := none, is_article := none }

/-- The catch-block rewording in both summarize handlers: a message
mentioning CORS or NetworkError is replaced by a fixed network-error text. -/
def corsReword (msg : String) : String :=
  if jsIncludes msg "CORS" || jsIncludes msg "NetworkError" then
    "Network error. This may be a CORS issue with the backend service."
  else msg

/-- An error response produced through the summarize catch block: the
thrown message passes through `corsReword` before being sent. -/
def summarizeCatchFail (msg : String) : SummarizeResponse :=
  summarizePlainFail (corsReword msg)

/-- What one fetch attempt inside a retrying handler leads to: entering the
401-refresh-and-retry branch, or producing a response for the caller. -/
inductive AttemptStep (ρ : Type) where
  | retryAfter401
  | respond (r : ρ)
deriving DecidableEq, Repr

/-- The record of one handler run: the state it leaves behind, the value it
passed to sendResponse (none only on paths the code cannot reach), the
request headers of each network call it made in order, and the number of
times it invoked `initializeExtensionState` to reload from durable
storage. -/
structure HandlerTrace (ρ : Type) where
  state : BgState
  response : Option ρ
  requestHeaders : List (List (String × String))
  reloads : Nat
deriving DecidableEq, Repr

/-- Header construction in `handleSummarizePage` and `handleSummarizeHTML`:
Content-Type always; `Authorization: Bearer <token>` is appended only when
`if (authToken)` holds, i.e. the token is a non-empty string. -/
def summarizeHeaders (authToken : Option String) : List (String × String) :=
  let headers := [("Content-Type", "application/json")]
  if jsTruthy authToken then
    headers ++ [("Authorization", "Bearer " ++ authToken.getD "")]
  else headers

/-- Whether a header list contains an Authorization entry. -/
def hasAuthHeader (hs : List (String × String)) : Bool :=
  hs.any (fun h => h.1 == "Authorization")

/-- Processing of one summarize fetch outcome (body of the try block of
`handleSummarizePage` from the fetch onward).  In source order: a rejected
fetch is rethrown as a "Network error: ..." message; a 401 with
`retryCount === 0` enters the retry branch before anything is parsed; a
non-JSON Content-Type throws the diagnostic carrying the status and the
first 100 characters of the raw body; a non-ok status throws
`error.error || 'Backend service error (<status>)'`; otherwise the parsed
body fields are sent with `success: true`.  Thrown messages reach the
caller through the catch block (`summarizeCatchFail`). -/
def summarizeAttempt (retryCount : Nat) (f : FetchOutcome SummarizeBody) :
    AttemptStep SummarizeResponse :=
  match f with
  | .networkError msg =>
      .respond (summarizeCatchFail
        ("Network error: " ++ msg ++ ". Check if Railway backend is deployed and running."))
  | .response status contentType bodyText bodyJson =>
      if status = 401 ∧ retryCount = 0 then .retryAfter401
      else if ¬ (contentTypeJson contentType = true) then
        .respond (summarizeCatchFail
          ("Backend returned non-JSON response (" ++ Nat.repr status ++ "). Response: "
            ++ substrTo bodyText 100 ++ "..."))
      else if ¬ (httpOk status = true) then
        match bodyJson with
        | .failed pm => .respond (summarizeCatchFail pm)
        | .ok body =>
            .respond (summarizeCatchFail
              (jsOrElse body.error ("Backend service error (" ++ Nat.repr status ++ ")")))
      else
        match bodyJson with
        | .failed pm => .respond (summarizeCatchFail pm)
        | .ok body =>
            .respond { success := true, error := none, summary := body.summary
                       summary_data := body.summary_data, is_article := body.is_article }

/-- Result of `chrome.tabs.get(request.tabId)`: it throws, or returns a tab
object whose `url` field may be undefined. -/
inductive TabLookup where
  | failed (msg : String)
  | found (url : Option String)
deriving DecidableEq, Repr

/-- The environment one run of `handleSummarizePage` consumes: the tab
lookup, the response to the first network call, the response to the retry
call (consulted only if the retry happens), and the outcome of the storage
read performed by the `initializeExtensionState` reload.  The initial
`chrome.storage.local.get(['backendUrl'])` only influences endpoint
selection and is not modelled. -/
structure SummarizeEnv where
  tab : TabLookup
  fetch1 : FetchOutcome SummarizeBody
  fetch2 : FetchOutcome SummarizeBody
  storageRead : StorageReadOutcome
deriving DecidableEq, Repr

/-- The fields of a summarizePage request the handler reads. -/
structure SummarizeRequest where
  tabId : Nat
  customPrompt : Option String
deriving DecidableEq, Repr

/-- `handleSummarizePage(request, sendResponse, retryCount = 0)`: resolve
the tab (failures respond without any network call), make the first fetch
with headers built from the current token; on a 401 with `retryCount === 0`
reload state from durable storage via `initializeExtensionState` and re-run
with `retryCount = 1`, rebuilding headers from the freshly loaded token.
The second run's 401 branch is dead (`retryCount === 0` fails), so every
second-attempt outcome falls through to the response processing. -/
def handleSummarizePage (env : SummarizeEnv) (s : BgState) :
    HandlerTrace SummarizeResponse :=
  match env.tab with
  | .failed _ =>
      ⟨s, some (summarizePlainFail "Unable to get current tab URL"), [], 0⟩
  | .found none =>
      ⟨s, some (summarizePlainFail "Tab URL is not available"), [], 0⟩
  | .found (some _) =>
      let h1 := summarizeHeaders s.authToken
      match summarizeAttempt 0 env.fetch1 with
      | .respond r => ⟨s, some r, [h1], 0⟩
      | .retryAfter401 =>
          let s2 := initializeExtensionState env.storageRead s
          let h2 := summarizeHeaders s2.authToken
          match summarizeAttempt 1 env.fetch2 with
          | .respond r => ⟨s2, some r, [h1, h2], 1⟩
          | .retryAfter401 => ⟨s2, none, [h1, h2], 1⟩

/-- The fields of a summarizeHTML request the handler reads; each may be
absent from the message. -/
structure SummarizeHTMLRequest where
  html : Option String
  url : Option String
  title : Option String
deriving DecidableEq, Repr

/-- Processing of the single summarizeHTML fetch outcome.  Differences from
`handleSummarizePage`, per source: no 401 handling at all; the non-JSON
diagnostic is a fixed sentence without status or body excerpt; the generic
non-ok message is `'Backend service error'` without the status; the success
response carries `summary` and `is_article` but no `summary_data`; a
rejected fetch reaches the catch block with its original message. -/
def summarizeHTMLAttempt (f : FetchOutcome SummarizeBody) : SummarizeResponse :=
  match f with
  | .networkError msg => summarizeCatchFail msg
  | .response status contentType _ bodyJson =>
      if ¬ (contentTypeJson contentType = true) then
        summarizeCatchFail
          "Backend returned non-JSON response. Check if the backend URL is correct."
      else if ¬ (httpOk status = true) then
        match bodyJson with
        | .failed pm => summarizeCatchFail pm
        | .ok body => summarizeCatchFail (jsOrElse body.error "Backend service error")
      else
        match bodyJson with
        | .failed pm => summarizeCatchFail pm
        | .ok body =>
            { success := true, error := none, summary := body.summary
              summary_data := none, is_article := body.is_article }

/-- `handleSummarizeHTML(request, sendResponse)`: the guard
`if (!request.html)` responds `'No HTML content provided'` synchronously —
before the storage read and the fetch — for an absent or empty html field;
otherwise exactly one fetch is made with the same header construction as
`handleSummarizePage`, and no retry or state mutation ever occurs. -/
def handleSummarizeHTML (req : SummarizeHTMLRequest)
    (fetch : FetchOutcome SummarizeBody) (s : BgState) :
    HandlerTrace SummarizeResponse :=
  if ¬ (jsTruthy req.html = true) then
    ⟨s, some (summarizePlainFail "No HTML content provided"), [], 0⟩
  else
    ⟨s, some (summarizeHTMLAttempt fetch), [summarizeHeaders s.authToken], 0⟩

/-! ## Preferences handlers -/

/-- The preferences record as the UI submits it and the backend stores it
(snake_case wire fields; the reader fields may be absent). -/
structure PrefsRecord where
  summary_style : String
  auto_summarize_enabled : Bool
  notifications_enabled : Bool
  reader_type : Option String
  reading_level : Option String
deriving DecidableEq, Repr

/-- The JSON body shape of the preferences endpoints: `success`, `error`,
and `preferences`, each possibly absent. -/
structure PrefsBody where
  success : Option Bool
  error : Option String
  preferences : Option PrefsRecord
deriving DecidableEq, Repr

/-- The object `saveUserPreferences` passes to sendResponse. -/
structure SaveResponse where
  success : Bool
  error : Option String
  preferences : Option PrefsRecord
deriving DecidableEq, Repr

/-- The camelCase preferences object `loadUserPreferences` sends back. -/
structure PrefsCamel where
  summaryStyle : String
  autoSummarizeEnabled : Bool
  notificationsEnabled : Bool
deriving DecidableEq, Repr

/-- The object `loadUserPreferences` passes to sendResponse. -/
structure LoadResponse where
  success : Bool
  error : Option String
  preferences : Option PrefsCamel
deriving DecidableEq, Repr

/-- The snake_case-to-camelCase field mapping `loadUserPreferences` applies
to `data.preferences` (only the three style/toggle fields are mapped). -/
def prefsToCamel (p : PrefsRecord) : PrefsCamel :=
  { summaryStyle := p.summary_style
    autoSummarizeEnabled := p.auto_summarize_enabled
    notificationsEnabled := p.notifications_enabled }

/-- Headers of the preferences calls: Content-Type plus an unconditional
`Authorization: Bearer <token>` (both handlers run only after the
`if (!authToken)` guard has passed). -/
def prefsHeaders (authToken : Option String) : List (String × String) :=
  [("Content-Type", "application/json"),
   ("Authorization", "Bearer " ++ authToken.getD "")]

/-- Processing of one save-preferences fetch outcome, from the fetch
onward.  In source order: a rejected fetch is caught as
`'Network error while saving preferences'`; a 401 with `retryCount === 0`
enters the retry branch; otherwise `await response.json()` runs with no
Content-Type inspection — a body that fails to parse lands in the same
catch; `response.ok && data.success` sends the parsed `data.preferences`
with `success: true`; anything else sends
`data.error || 'Failed to save preferences'`. -/
def savePrefsAttempt (retryCount : Nat) (f : FetchOutcome PrefsBody) :
    AttemptStep SaveResponse :=
  match f with
  | .networkError _ =>
      .respond { success := false
                 error := some "Network error while saving preferences"
                 preferences := none }
  | .response status _ _ bodyJson =>
      if status = 401 ∧ retryCount = 0 then .retryAfter401
      else
        match bodyJson with
        | .failed _ =>
            .respond { success := false
                       error := some "Network error while saving preferences"
                       preferences := none }
        | .ok body =>
            if httpOk status = true ∧ body.success = some true then
              .respond { success := true, error := none
                         preferences := body.preferences }
            else
              .respond { success := false
                         error := some (jsOrElse body.error "Failed to save preferences")
                         preferences := none }

/-- The environment one run of `saveUserPreferences` consumes. -/
structure SavePrefsEnv where
  fetch1 : FetchOutcome PrefsBody
  fetch2 : FetchOutcome PrefsBody
  storageRead : StorageReadOutcome
deriving DecidableEq, Repr

/-- `saveUserPreferences(preferences, sendResponse, retryCount = 0)`: the
guard `if (!authToken)` responds `'Authentication required to save
preferences'` without a network call; otherwise the fetch is made with an
unconditional bearer header; on a 401 with `retryCount === 0` the state is
reloaded via `initializeExtensionState` and the whole function re-runs with
`retryCount = 1` — including the `if (!authToken)` guard, so a reload that
produced no (or an empty) token responds with the authentication-required
error after only one network call. -/
def saveUserPreferences (env : SavePrefsEnv) (s : BgState) :
    HandlerTrace SaveResponse :=
  if ¬ (jsTruthy s.authToken = true) then
    ⟨s, some { success := false
               error := some "Authentication required to save preferences"
               preferences := none }, [], 0⟩
  else
    let h1 := prefsHeaders s.authToken
    match savePrefsAttempt 0 env.fetch1 with
    | .respond r => ⟨s, some r, [h1], 0⟩
    | .retryAfter401 =>
        let s2 := initializeExtensionState env.storageRead s
        if ¬ (jsTruthy s2.authToken = true) then
          ⟨s2, some { success := false
                      error := some "Authentication required to save preferences"
                      preferences := none }, [h1], 1⟩
        else
          match savePrefsAttempt 1 env.fetch2 with
          | .respond r => ⟨s2, some r, [h1, prefsHeaders s2.authToken], 1⟩
          | .retryAfter401 => ⟨s2, none, [h1, prefsHeaders s2.authToken], 1⟩

/-- `loadUserPreferences(sendResponse)`: same `if (!authToken)` guard; one
fetch with an unconditional bearer header and no Content-Type inspection
and no 401 retry.  On `response.ok && data.success` the three snake_case
fields of `data.preferences` are cached into durable storage (the set is
not awaited) and sent back camelCased; accessing a field of an absent
`data.preferences` throws and lands in the catch, which responds
`'Network error while loading preferences'`, as do a rejected fetch and a
JSON parse failure; other responses send
`data.error || 'Failed to load preferences'`. -/
def loadUserPreferences (fetch : FetchOutcome PrefsBody) (s : BgState) :
    HandlerTrace LoadResponse :=
  if ¬ (jsTruthy s.authToken = true) then
    ⟨s, some { success := false
               error := some "Authentication required to load preferences"
               preferences := none }, [], 0⟩
  else
    let h1 := prefsHeaders s.authToken
    match fetch with
    | .networkError _ =>
        ⟨s, some { success := false
                   error := some "Network error while loading preferences"
                   preferences := none }, [h1], 0⟩
    | .response status _ _ bodyJson =>
        match bodyJson with
        | .failed _ =>
            ⟨s, some { success := false
                       error := some "Network error while loading preferences"
                       preferences := none }, [h1], 0⟩
        | .ok body =>
            if httpOk status = true ∧ body.success = some true then
              match body.preferences with
              | some p =>
                  ⟨{ s with storage :=
                      { s.storage with
                        summaryStyle := some p.summary_style
                        autoSummarizeEnabled := some p.auto_summarize_enabled
                        notificationsEnabled := some p.notifications_enabled } },
                   some { success := true, error := none
                          preferences := some (prefsToCamel p) }, [h1], 0⟩
              | none =>
                  ⟨s, some { success := false
                             error := some "Network error while loading preferences"
                             preferences := none }, [h1], 0⟩
            else
              ⟨s, some { success := false
                         error := some (jsOrElse body.error "Failed to load preferences")
                         preferences := none }, [h1], 0⟩

/-! ## Message Router (chrome.runtime.onMessage listener) -/

/-- The message fields the listener itself reads before delegating:
`action` always; `enabled` for toggleExtension; `title` and `url` for
pageLoaded.  Handler-specific payloads are consumed by the delegated
handlers, modelled separately. -/
structure RouterRequest where
  action : String
  enabled : Bool
  title : String
  url : String
deriving DecidableEq, Repr

/-- `sender` as the listener reads it: only whether a tab (and its id) is
attached. -/
structure SenderInfo where
  tabId : Option Nat
deriving DecidableEq, Repr

/-- Which asynchronous handler a dispatch invoked (`return true` cases). -/
inductive Delegation where
  | summarizePage
  | summarizeHTML
  | testBackend
  | googleAuth
  | logout
  | checkAuth
  | getSubscriptionStatus
  | createCheckoutSession
  | refreshSubscriptionStatus
  | forceAuthRefresh
  | savePreferences
  | loadPreferences
  | sendFeedback
deriving DecidableEq, Repr

/-- One listener invocation: the state after the synchronous part of the
dispatch ran, the synchronous sendResponse value if any (`some b` models
`sendResponse({enabled: b})` from checkEnabled — the only synchronous
response), which handler was delegated to, and the listener's return value
(`true` keeps the response channel open). -/
structure RouterResult where
  state : BgState
  response : Option Bool
  delegated : Option Delegation
  keepOpen : Bool
deriving DecidableEq, Repr

/-- `pageTitles.set(tabId, entry)`: replace an existing entry or append. -/
def setPageTitle (m : List (Nat × PageTitleEntry)) (k : Nat) (v : PageTitleEntry) :
    List (Nat × PageTitleEntry) :=
  match m with
  | [] => [(k, v)]
  | (k1, v1) :: rest =>
      if k1 = k then (k, v) :: rest else (k1, v1) :: setPageTitle rest k v

/-- The `action` strings with a case in the listener's switch. -/
def recognizedActions : List String :=
  ["toggleExtension", "pageLoaded", "checkEnabled", "summarizePage",
   "summarizeHTML", "testBackend", "googleAuth", "logout", "checkAuth",
   "getSubscriptionStatus", "createCheckoutSession", "refreshSubscriptionStatus",
   "forceAuthRefresh", "savePreferences", "loadPreferences", "sendFeedback"]

/-- A dispatch that only delegates and returns true. -/
def delegateTo (s : BgState) (d : Delegation) : RouterResult :=
  ⟨s, none, some d, true⟩

/-- The combined message listener (the `switch(request.action)` block):
toggleExtension assigns `request.enabled` and falls off the switch without
responding; pageLoaded stores the title when the extension is enabled and a
sender tab exists; checkEnabled responds synchronously; the thirteen
asynchronous actions delegate to their handler and return true; an action
matching no case runs no code at all — no response, no state change, no
exception — and the listener returns undefined (falsy). -/
def routerStep (s : BgState) (req : RouterRequest) (sender : SenderInfo)
    (now : Nat) : RouterResult :=
  if req.action = "toggleExtension" then
    ⟨{ s with extensionEnabled := req.enabled }, none, none, false⟩
  else if req.action = "pageLoaded" then
    match s.extensionEnabled, sender.tabId with
    | true, some tid =>
        ⟨{ s with pageTitles := setPageTitle s.pageTitles tid ⟨req.title, req.url, now⟩ },
         none, none, false⟩
    | _, _ => ⟨s, none, none, false⟩
  else if req.action = "checkEnabled" then
    ⟨s, some s.extensionEnabled, none, false⟩
  else if req.action = "summarizePage" then delegateTo s .summarizePage
  else if req.action = "summarizeHTML" then delegateTo s .summarizeHTML
  else if req.action = "testBackend" then delegateTo s .testBackend
  else if req.action = "googleAuth" then delegateTo s .googleAuth
  else if req.action = "logout" then delegateTo s .logout
  else if req.action = "checkAuth" then delegateTo s .checkAuth
  else if req.action = "getSubscriptionStatus" then delegateTo s .getSubscriptionStatus
  else if req.action = "createCheckoutSession" then delegateTo s .createCheckoutSession
  else if req.action = "refreshSubscriptionStatus" then delegateTo s .refreshSubscriptionStatus
  else if req.action = "forceAuthRefresh" then delegateTo s .forceAuthRefresh
  else if req.action = "savePreferences" then delegateTo s .savePreferences
  else if req.action = "loadPreferences" then delegateTo s .loadPreferences
  else if req.action = "sendFeedback" then delegateTo s .sendFeedback
  else ⟨s, none, none, false⟩

/-! ## Claim theorems -/

/-- C3 (counterexample): the Session Store invariant does NOT hold for
every backend response.  Starting from the both-absent initial state, a
single `authenticateWithGoogle` whose backend success response carries a
token but no `user` field leaves `authToken = "T"` in memory with
`currentUser` absent — one present without the other. -/
theorem C3_counterexample :
    ¬ sessionInv (runOps initBgState
      [SessionOp.googleAuth (.success ⟨some "T", none⟩ true)]) := by
  decide

/-- C3 (amended): the Session Store invariant — token present iff user
present, in memory and in durable storage — holds after every sequence of
session-mutating operations (initializeExtensionState,
authenticateWithGoogle, logout, checkAuthStatus) from the both-absent
initial state, provided each successful auth response carries both a token
and a user and its storage write completes, and each successful verify
response carries a user.  Storage read failures, network failures, non-ok
statuses and failing storage removes remain unconstrained. -/
theorem C3_invariant_wellFormed (ops : List SessionOp)
    (hops : ∀ op ∈ ops, wellFormed op) :
    sessionInv (runOps initBgState ops) := by
  have h0 : sessionInvStrong initBgState := by
    refine ⟨⟨?_, ?_⟩, ?_⟩ <;> simp [initBgState]
  exact (runOps_preserves_strong ops initBgState h0 hops).1

/-- Witness for C3: a concrete well-formed authenticate-then-verify
sequence satisfies the invariant. -/
theorem C3_invariant_wellFormed_witness :
    sessionInv (runOps initBgState
      [SessionOp.googleAuth (.success ⟨some "T", some ⟨1, "a@b.c", "A"⟩⟩ true),
       SessionOp.checkAuth (.ok (some ⟨1, "a@b.c", "A"⟩) true)]) :=
  C3_invariant_wellFormed _ (by
    intro op hop
    simp only [List.mem_cons, List.not_mem_nil, or_false] at hop
    rcases hop with h | h <;> subst h <;> simp [wellFormed])

/-- C6 (confirmed): if the durable-storage read inside
`initializeExtensionState` fails, the catch block installs the
not-authenticated defaults — `authToken` and `currentUser` absent,
`extensionEnabled` true — for every failure and every prior state, and the
model is a total function (no exception propagates). -/
theorem C6_initialize_failure_defaults (msg : String) (s : BgState) :
    initializeExtensionState (.failure msg) s =
      { s with extensionEnabled := true, authToken := none, currentUser := none } :=
  rfl

/-- C7 (confirmed): a message whose action matches no case of the
listener's switch produces no synchronous response, delegates to no
handler, returns false (channel closed, so no response can ever be sent for
it), and leaves the entire Router state — extensionEnabled, pageTitles,
authToken, currentUser and storage — unchanged; being a total function, the
dispatch also cannot throw, so subsequent messages are processed from the
same state. -/
theorem C7_unknown_action_noop (s : BgState) (req : RouterRequest)
    (sender : SenderInfo) (now : Nat)
    (h : req.action ∉ recognizedActions) :
    routerStep s req sender now = ⟨s, none, none, false⟩ := by
  simp only [recognizedActions, List.mem_cons, List.not_mem_nil, or_false,
    not_or] at h
  obtain ⟨h1, h2, h3, h4, h5, h6, h7, h8, h9, h10, h11, h12, h13, h14, h15, h16⟩ := h
  simp only [routerStep, h1, h2, h3, h4, h5, h6, h7, h8, h9, h10, h11, h12,
    h13, h14, h15, h16, if_false]

/-- Witness for C7: the concrete unrecognized action "bogusAction" is
dropped silently from the initial state. -/
theorem C7_unknown_action_noop_witness :
    routerStep initBgState ⟨"bogusAction", true, "t", "u"⟩ ⟨none⟩ 0 =
      ⟨initBgState, none, none, false⟩ :=
  C7_unknown_action_noop initBgState ⟨"bogusAction", true, "t", "u"⟩ ⟨none⟩ 0
    (by decide)

/-- C10 (confirmed): a summarizeHTML request whose `html` field is absent
or empty (falsy) is answered synchronously with
`{success: false, error: 'No HTML content provided'}`, with no network
call, no storage reload, and the worker state unchanged. -/
theorem C10_summarizeHTML_no_html (req : SummarizeHTMLRequest)
    (fetch : FetchOutcome SummarizeBody) (s : BgState)
    (h : jsTruthy req.html = false) :
    handleSummarizeHTML req fetch s =
      ⟨s, some (summarizePlainFail "No HTML content provided"), [], 0⟩ := by
  simp [handleSummarizeHTML, h]

/-- Witness for C10: the empty html string is rejected without a call. -/
theorem C10_summarizeHTML_no_html_witness :
    handleSummarizeHTML ⟨some "", none, none⟩ (.networkError "unused") initBgState =
      ⟨initBgState, some (summarizePlainFail "No HTML content provided"), [], 0⟩ :=
  C10_summarizeHTML_no_html ⟨some "", none, none⟩ (.networkError "unused")
    initBgState (by decide)

/-- C1 (counterexample): after a 401 on both the first send and the single
retry, the Session Store is NOT cleared and the caller does not receive an
authentication-required error.  Concretely, with token "T" in memory and in
durable storage and both summarize fetches answering 401 with JSON body
`{"error": "Unauthorized"}`, the handler ends with `authToken` still "T"
(reloaded from storage, not cleared) and responds with the backend's own
message. -/
theorem C1_counterexample :
    (let t := handleSummarizePage
        ⟨.found (some "https://example.com"),
         .response 401 (some "application/json") ""
           (.ok ⟨some "Unauthorized", none, none, none⟩),
         .response 401 (some "application/json") ""
           (.ok ⟨some "Unauthorized", none, none, none⟩),
         .ok⟩
        { extensionEnabled := true, pageTitles := [], authToken := some "T"
          currentUser := some ⟨1, "a@b.c", "A"⟩
          storage := ⟨some true, some "T", some ⟨1, "a@b.c", "A"⟩, none, none, none⟩ }
     t.state.authToken = some "T" ∧
       t.response = some (summarizePlainFail "Unauthorized")) := by
  decide

/-- C1 (amended): when the backend answers 401 on both the first send and
the single retry, each wrapped handler (handleSummarizePage via its
retryCount guard, saveUserPreferences likewise, assuming a token is present
before the call and after the reload so that the retry is sent at all)
makes exactly two network calls — never a third — reloads the Session
Store from durable storage exactly once, and invokes the callback with a
`success: false` error response; the Session Store is NOT cleared: the
final state is exactly the result of the one durable-storage reload. -/
theorem C1_amended (s : BgState) (url : String)
    (ct1 ct2 : Option String) (t1 t2 : String) (j1 j2 : JsonParse SummarizeBody)
    (r : StorageReadOutcome)
    (pct1 pct2 : Option String) (pt1 pt2 : String) (pj1 pj2 : JsonParse PrefsBody)
    (hTok : jsTruthy s.authToken = true)
    (hTok2 : jsTruthy (initializeExtensionState r s).authToken = true) :
    (let t := handleSummarizePage
        ⟨.found (some url), .response 401 ct1 t1 j1, .response 401 ct2 t2 j2, r⟩ s
     t.requestHeaders.length = 2 ∧ t.reloads = 1 ∧
       t.state = initializeExtensionState r s ∧
       ∃ msg, t.response = some (summarizePlainFail msg)) ∧
    (let t := saveUserPreferences
        ⟨.response 401 pct1 pt1 pj1, .response 401 pct2 pt2 pj2, r⟩ s
     t.requestHeaders.length = 2 ∧ t.reloads = 1 ∧
       t.state = initializeExtensionState r s ∧
       ∃ resp, t.response = some resp ∧ resp.success = false) := by
  constructor
  · cases j2 with
    | failed pm =>
        by_cases hct : contentTypeJson ct2 = true <;>
          simp [handleSummarizePage, summarizeAttempt, hct, httpOk,
            summarizeCatchFail]
    | ok body =>
        by_cases hct : contentTypeJson ct2 = true <;>
          simp [handleSummarizePage, summarizeAttempt, hct, httpOk,
            summarizeCatchFail]
  · cases pj2 with
    | failed pm =>
        simp [saveUserPreferences, savePrefsAttempt, hTok, hTok2]
    | ok body =>
        simp [saveUserPreferences, savePrefsAttempt, hTok, hTok2, httpOk]

/-- Witness for C1 (amended): both handlers at a concrete double-401
environment with token "T" stored durably. -/
theorem C1_amended_witness :
    (let t := handleSummarizePage
        ⟨.found (some "https://example.com"),
         .response 401 (some "application/json") ""
           (.ok ⟨some "Unauthorized", none, none, none⟩),
         .response 401 (some "application/json") ""
           (.ok ⟨some "Unauthorized", none, none, none⟩),
         .ok⟩
        { extensionEnabled := true, pageTitles := [], authToken := some "T"
          currentUser := some ⟨1, "a@b.c", "A"⟩
          storage := ⟨some true, some "T", some ⟨1, "a@b.c", "A"⟩, none, none, none⟩ }
     t.requestHeaders.length = 2 ∧ t.reloads = 1 ∧
       t.state = initializeExtensionState .ok
         { extensionEnabled := true, pageTitles := [], authToken := some "T"
           currentUser := some ⟨1, "a@b.c", "A"⟩
           storage := ⟨some true, some "T", some ⟨1, "a@b.c", "A"⟩, none, none, none⟩ } ∧
       ∃ msg, t.response = some (summarizePlainFail msg)) ∧
    (let t := saveUserPreferences
        ⟨.response 401 (some "application/json") "" (.ok ⟨some false, some "expired", none⟩),
         .response 401 (some "application/json") "" (.ok ⟨some false, some "expired", none⟩),
         .ok⟩
        { extensionEnabled := true, pageTitles := [], authToken := some "T"
          currentUser := some ⟨1, "a@b.c", "A"⟩
          storage := ⟨some true, some "T", some ⟨1, "a@b.c", "A"⟩, none, none, none⟩ }
     t.requestHeaders.length = 2 ∧ t.reloads = 1 ∧
       t.state = initializeExtensionState .ok
         { extensionEnabled := true, pageTitles := [], authToken := some "T"
           currentUser := some ⟨1, "a@b.c", "A"⟩
           storage := ⟨some true, some "T", some ⟨1, "a@b.c", "A"⟩, none, none, none⟩ } ∧
       ∃ resp, t.response = some resp ∧ resp.success = false) :=
  C1_amended
    { extensionEnabled := true, pageTitles := [], authToken := some "T"
      currentUser := some ⟨1, "a@b.c", "A"⟩
      storage := ⟨some true, some "T", some ⟨1, "a@b.c", "A"⟩, none, none, none⟩ }
    "https://example.com"
    (some "application/json") (some "application/json") "" ""
    (.ok ⟨some "Unauthorized", none, none, none⟩)
    (.ok ⟨some "Unauthorized", none, none, none⟩)
    .ok
    (some "application/json") (some "application/json") "" ""
    (.ok ⟨some false, some "expired", none⟩)
    (.ok ⟨some false, some "expired", none⟩)
    (by decide) (by decide)

/-- C2 (confirmed): when the backend answers 401 on the first send and a
successful JSON response on the resend, each wrapped handler makes exactly
two network calls and exactly one `initializeExtensionState` reload from
durable storage, and the callback receives the successful result — the
parsed body fields with `success: true`.  For `saveUserPreferences` the
token must be truthy before the call and after the reload (otherwise no
resend happens), and the resent response must be ok with `data.success`
set; `handleSummarizePage` resends unconditionally. -/
theorem C2_retry_then_success (s : BgState) (url : String)
    (ct1 : Option String) (t1 : String) (j1 : JsonParse SummarizeBody)
    (r : StorageReadOutcome)
    (st2 : Nat) (ct2 : Option String) (t2 : String) (b2 : SummarizeBody)
    (pct1 : Option String) (pt1 : String) (pj1 : JsonParse PrefsBody)
    (pst2 : Nat) (pct2 : Option String) (pt2 : String) (pb2 : PrefsBody)
    (hct2 : contentTypeJson ct2 = true) (hok2 : httpOk st2 = true)
    (hTok : jsTruthy s.authToken = true)
    (hTok2 : jsTruthy (initializeExtensionState r s).authToken = true)
    (hpok : httpOk pst2 = true) (hps : pb2.success = some true) :
    (let t := handleSummarizePage
        ⟨.found (some url), .response 401 ct1 t1 j1,
         .response st2 ct2 t2 (.ok b2), r⟩ s
     t.requestHeaders.length = 2 ∧ t.reloads = 1 ∧
       t.response = some { success := true, error := none, summary := b2.summary
                           summary_data := b2.summary_data
                           is_article := b2.is_article }) ∧
    (let t := saveUserPreferences
        ⟨.response 401 pct1 pt1 pj1, .response pst2 pct2 pt2 (.ok pb2), r⟩ s
     t.requestHeaders.length = 2 ∧ t.reloads = 1 ∧
       t.response = some { success := true, error := none
                           preferences := pb2.preferences }) := by
  have h401 : httpOk 401 = false := by decide
  constructor
  · have hnot : ¬ (st2 = 401 ∧ (1 : Nat) = 0) := by omega
    simp [handleSummarizePage, summarizeAttempt, hct2, hok2, hnot]
  · have hnot : ¬ (pst2 = 401 ∧ (1 : Nat) = 0) := by omega
    simp [saveUserPreferences, savePrefsAttempt, hTok, hTok2, hnot, hpok, hps]

/-- Witness for C2: both handlers at a concrete 401-then-200 environment
with token "T" stored durably. -/
theorem C2_retry_then_success_witness :
    (let t := handleSummarizePage
        ⟨.found (some "https://example.com"),
         .response 401 (some "application/json") ""
           (.ok ⟨some "Unauthorized", none, none, none⟩),
         .response 200 (some "application/json") ""
           (.ok ⟨none, some "S", some "D", some true⟩),
         .ok⟩
        { extensionEnabled := true, pageTitles := [], authToken := some "T"
          currentUser := some ⟨1, "a@b.c", "A"⟩
          storage := ⟨some true, some "T", some ⟨1, "a@b.c", "A"⟩, none, none, none⟩ }
     t.requestHeaders.length = 2 ∧ t.reloads = 1 ∧
       t.response = some { success := true, error := none, summary := some "S"
                           summary_data := some "D", is_article := some true }) ∧
    (let t := saveUserPreferences
        ⟨.response 401 (some "application/json") ""
           (.ok ⟨some false, some "expired", none⟩),
         .response 200 (some "application/json") ""
           (.ok ⟨some true, none, some ⟨"detailed", true, false, none, none⟩⟩),
         .ok⟩
        { extensionEnabled := true, pageTitles := [], authToken := some "T"
          currentUser := some ⟨1, "a@b.c", "A"⟩
          storage := ⟨some true, some "T", some ⟨1, "a@b.c", "A"⟩, none, none, none⟩ }
     t.requestHeaders.length = 2 ∧ t.reloads = 1 ∧
       t.response = some { success := true, error := none
                           preferences := some ⟨"detailed", true, false, none, none⟩ }) :=
  C2_retry_then_success
    { extensionEnabled := true, pageTitles := [], authToken := some "T"
      currentUser := some ⟨1, "a@b.c", "A"⟩
      storage := ⟨some true, some "T", some ⟨1, "a@b.c", "A"⟩, none, none, none⟩ }
    "https://example.com"
    (some "application/json") "" (.ok ⟨some "Unauthorized", none, none, none⟩)
    .ok
    200 (some "application/json") "" ⟨none, some "S", some "D", some true⟩
    (some "application/json") "" (.ok ⟨some false, some "expired", none⟩)
    200 (some "application/json") ""
    ⟨some true, none, some ⟨"detailed", true, false, none, none⟩⟩
    (by decide) (by decide) (by decide) (by decide) (by decide) (by decide)

/-- C4 (counterexample): the Content-Type guard does NOT hold for all
backend-calling handlers.  `saveUserPreferences` — one of the handlers the
claim covers — performs no Content-Type inspection: on a text/html 500
body it calls `response.json()`, the parse rejects, and the caller gets the
fixed message `'Network error while saving preferences'`, which carries no
prefix of the raw body (it does not even contain the character the body
starts with). -/
theorem C4_counterexample :
    (let t := saveUserPreferences
        ⟨.response 500 (some "text/html") "<html>Internal Server Error</html>"
           (.failed "Unexpected token < in JSON at position 0"),
         .response 500 (some "text/html") "<html>Internal Server Error</html>"
           (.failed "Unexpected token < in JSON at position 0"),
         .ok⟩
        { extensionEnabled := true, pageTitles := [], authToken := some "T"
          currentUser := some ⟨1, "a@b.c", "A"⟩
          storage := ⟨some true, some "T", some ⟨1, "a@b.c", "A"⟩, none, none, none⟩ }
     t.response = some { success := false
                         error := some "Network error while saving preferences"
                         preferences := none } ∧
       jsIncludes "Network error while saving preferences" "<" = false) := by
  decide

/-- C4 (amended): the Content-Type inspection exists only in the two
summarize handlers.  (i) `handleSummarizePage` surfaces a non-JSON body as
an error carrying the status and the first 100 characters of the raw body
(provided the composed diagnostic does not itself mention CORS or
NetworkError, which would trigger the catch-block rewording, and the status
is not a first-attempt 401, which retries first); (ii) `handleSummarizeHTML`
also refuses to parse but reports a fixed diagnostic without any body
excerpt; (iii) `saveUserPreferences` and (iv) `loadUserPreferences` attempt
`response.json()` regardless of the Content-Type header and surface a parse
failure as their fixed network-error message. -/
theorem C4_amended (s : BgState) (url : String)
    (st : Nat) (ct : Option String) (text : String) (j : JsonParse SummarizeBody)
    (f2 : FetchOutcome SummarizeBody) (r : StorageReadOutcome)
    (req : SummarizeHTMLRequest) (hst : Nat) (hct2 : Option String)
    (htext : String) (hj : JsonParse SummarizeBody)
    (pst lst : Nat) (pct lct : Option String) (ptext ltext : String)
    (pm lm : String) (pf2 : FetchOutcome PrefsBody)
    (hct : contentTypeJson ct = false) (h401 : st ≠ 401)
    (hC : jsIncludes ("Backend returned non-JSON response (" ++ Nat.repr st
        ++ "). Response: " ++ substrTo text 100 ++ "...") "CORS" = false)
    (hN : jsIncludes ("Backend returned non-JSON response (" ++ Nat.repr st
        ++ "). Response: " ++ substrTo text 100 ++ "...") "NetworkError" = false)
    (hhtml : jsTruthy req.html = true) (hhct : contentTypeJson hct2 = false)
    (hTok : jsTruthy s.authToken = true) (hp401 : pst ≠ 401) :
    (let t := handleSummarizePage ⟨.found (some url), .response st ct text j, f2, r⟩ s
     t.requestHeaders.length = 1 ∧
       t.response = some (summarizePlainFail
         ("Backend returned non-JSON response (" ++ Nat.repr st
           ++ "). Response: " ++ substrTo text 100 ++ "..."))) ∧
    (handleSummarizeHTML req (.response hst hct2 htext hj) s).response =
      some (summarizePlainFail
        "Backend returned non-JSON response. Check if the backend URL is correct.") ∧
    (saveUserPreferences ⟨.response pst pct ptext (.failed pm), pf2, r⟩ s).response =
      some { success := false, error := some "Network error while saving preferences"
             preferences := none } ∧
    (loadUserPreferences (.response lst lct ltext (.failed lm)) s).response =
      some { success := false, error := some "Network error while loading preferences"
             preferences := none } := by
  refine ⟨?_, ?_, ?_, ?_⟩
  · have hnot : ¬ (st = 401 ∧ (0 : Nat) = 0) := by
      intro hc; exact h401 hc.1
    simp [handleSummarizePage, summarizeAttempt, hnot, h401, hct,
      summarizeCatchFail, corsReword, hC, hN]
  · have hfix : corsReword
        "Backend returned non-JSON response. Check if the backend URL is correct." =
        "Backend returned non-JSON response. Check if the backend URL is correct." := by
      decide
    simp [handleSummarizeHTML, hhtml, summarizeHTMLAttempt, hhct,
      summarizeCatchFail, hfix]
  · have hnot : ¬ (pst = 401 ∧ (0 : Nat) = 0) := by
      intro hc; exact hp401 hc.1
    simp [saveUserPreferences, savePrefsAttempt, hTok, hnot, hp401]
  · simp [loadUserPreferences, hTok]

/-- Witness for C4 (amended): concrete text/html 500 responses for all four
handlers. -/
theorem C4_amended_witness :
    (let t := handleSummarizePage
        ⟨.found (some "https://example.com"),
         .response 500 (some "text/html") "<html>oops</html>"
           (.failed "Unexpected token < in JSON at position 0"),
         .networkError "unused", .ok⟩
        { extensionEnabled := true, pageTitles := [], authToken := some "T"
          currentUser := some ⟨1, "a@b.c", "A"⟩
          storage := ⟨some true, some "T", some ⟨1, "a@b.c", "A"⟩, none, none, none⟩ }
     t.requestHeaders.length = 1 ∧
       t.response = some (summarizePlainFail
         ("Backend returned non-JSON response (" ++ Nat.repr 500
           ++ "). Response: " ++ substrTo "<html>oops</html>" 100 ++ "..."))) ∧
    (handleSummarizeHTML ⟨some "<p>x</p>", some "https://example.com", some "t"⟩
        (.response 500 (some "text/html") "<html>oops</html>"
          (.failed "Unexpected token < in JSON at position 0"))
        { extensionEnabled := true, pageTitles := [], authToken := some "T"
          currentUser := some ⟨1, "a@b.c", "A"⟩
          storage := ⟨some true, some "T", some ⟨1, "a@b.c", "A"⟩, none, none, none⟩ }).response =
      some (summarizePlainFail
        "Backend returned non-JSON response. Check if the backend URL is correct.") ∧
    (saveUserPreferences
        ⟨.response 500 (some "text/html") "<html>oops</html>"
           (.failed "Unexpected token < in JSON at position 0"),
         .networkError "unused", .ok⟩
        { extensionEnabled := true, pageTitles := [], authToken := some "T"
          currentUser := some ⟨1, "a@b.c", "A"⟩
          storage := ⟨some true, some "T", some ⟨1, "a@b.c", "A"⟩, none, none, none⟩ }).response =
      some { success := false, error := some "Network error while saving preferences"
             preferences := none } ∧
    (loadUserPreferences
        (.response 500 (some "text/html") "<html>oops</html>"
          (.failed "Unexpected token < in JSON at position 0"))
        { extensionEnabled := true, pageTitles := [], authToken := some "T"
          currentUser := some ⟨1, "a@b.c", "A"⟩
          storage := ⟨some true, some "T", some ⟨1, "a@b.c", "A"⟩, none, none, none⟩ }).response =
      some { success := false, error := some "Network error while loading preferences"
             preferences := none } :=
  C4_amended
    { extensionEnabled := true, pageTitles := [], authToken := some "T"
      currentUser := some ⟨1, "a@b.c", "A"⟩
      storage := ⟨some true, some "T", some ⟨1, "a@b.c", "A"⟩, none, none, none⟩ }
    "https://example.com"
    500 (some "text/html") "<html>oops</html>"
    (.failed "Unexpected token < in JSON at position 0")
    (.networkError "unused") .ok
    ⟨some "<p>x</p>", some "https://example.com", some "t"⟩
    500 (some "text/html") "<html>oops</html>"
    (.failed "Unexpected token < in JSON at position 0")
    500 500 (some "text/html") (some "text/html") "<html>oops</html>" "<html>oops</html>"
    "Unexpected token < in JSON at position 0" "Unexpected token < in JSON at position 0"
    (.networkError "unused")
    (by decide) (by decide) (by decide) (by decide) (by decide) (by decide)
    (by decide) (by decide)

/-- C5 (counterexample): the claim fails when the JSON body's `error` field
is present but empty: JS `error.error || ...` is a truthiness test, so a
500 response with body `{"error": ""}` yields the generic
"Backend service error (500)" message instead of the present field's value
(the second conjunct records that the field was present). -/
theorem C5_counterexample :
    (handleSummarizePage
        ⟨.found (some "https://example.com"),
         .response 500 (some "application/json") "" (.ok ⟨some "", none, none, none⟩),
         .networkError "unused", .ok⟩
        initBgState).response =
      some (summarizePlainFail ("Backend service error (" ++ Nat.repr 500 ++ ")")) ∧
    (some "" : Option String) ≠ none := by
  decide

/-- C5 (amended): for a non-2xx JSON-bodied summarize response (outside the
first-attempt 401 retry), the delivered error message is the body's `error`
field when that field is present, non-empty, and free of the substrings
"CORS" and "NetworkError" (which the catch block rewords), and the generic
"Backend service error (<status>)" when the field is absent (provided that
composed generic message is itself free of those substrings, which it
always is). -/
theorem C5_error_field_selection (s : BgState) (url : String)
    (st : Nat) (ct : Option String) (text : String) (body : SummarizeBody)
    (f2 : FetchOutcome SummarizeBody) (r : StorageReadOutcome)
    (hct : contentTypeJson ct = true) (hnok : httpOk st = false) (h401 : st ≠ 401) :
    (body.error = none →
      jsIncludes ("Backend service error (" ++ Nat.repr st ++ ")") "CORS" = false →
      jsIncludes ("Backend service error (" ++ Nat.repr st ++ ")") "NetworkError" = false →
      (handleSummarizePage ⟨.found (some url), .response st ct text (.ok body), f2, r⟩ s).response
        = some (summarizePlainFail ("Backend service error (" ++ Nat.repr st ++ ")"))) ∧
    (∀ e, body.error = some e → e ≠ "" →
      jsIncludes e "CORS" = false → jsIncludes e "NetworkError" = false →
      (handleSummarizePage ⟨.found (some url), .response st ct text (.ok body), f2, r⟩ s).response
        = some (summarizePlainFail e)) := by
  constructor
  · intro he hC hN
    simp [handleSummarizePage, summarizeAttempt, h401, hct, hnok,
      summarizeCatchFail, corsReword, jsOrElse, he, hC, hN]
  · intro e he hne hC hN
    have hne2 : (e == "") = false := by
      cases h2 : e == "" with
      | true => exact absurd (by simpa using h2) hne
      | false => rfl
    simp [handleSummarizePage, summarizeAttempt, h401, hct, hnok,
      summarizeCatchFail, corsReword, jsOrElse, he, hne2, hC, hN]

/-- Witness for C5 (amended): a 500 with body `{"error": "quota exceeded"}`
surfaces that message; a 500 with no error field surfaces the generic
message. -/
theorem C5_error_field_selection_witness :
    (handleSummarizePage
        ⟨.found (some "https://example.com"),
         .response 500 (some "application/json") ""
           (.ok ⟨some "quota exceeded", none, none, none⟩),
         .networkError "unused", .ok⟩
        initBgState).response =
      some (summarizePlainFail "quota exceeded") ∧
    (handleSummarizePage
        ⟨.found (some "https://example.com"),
         .response 500 (some "application/json") "" (.ok ⟨none, none, none, none⟩),
         .networkError "unused", .ok⟩
        initBgState).response =
      some (summarizePlainFail ("Backend service error (" ++ Nat.repr 500 ++ ")")) :=
  ⟨(C5_error_field_selection initBgState "https://example.com" 500
      (some "application/json") "" ⟨some "quota exceeded", none, none, none⟩
      (.networkError "unused") .ok (by decide) (by decide) (by decide)).2
      "quota exceeded" rfl (by decide) (by decide) (by decide),
   (C5_error_field_selection initBgState "https://example.com" 500
      (some "application/json") "" ⟨none, none, none, none⟩
      (.networkError "unused") .ok (by decide) (by decide) (by decide)).1
      rfl (by decide) (by decide)⟩

/-- C8 (counterexample): the Authorization header is attached on a
truthiness test, not a non-null test: with `authToken` the empty string —
non-null — the summarize fetch goes out with only the Content-Type header. -/
theorem C8_counterexample :
    (handleSummarizePage
        ⟨.found (some "https://example.com"),
         .response 200 (some "application/json") "" (.ok ⟨none, some "S", none, none⟩),
         .networkError "unused", .ok⟩
        { extensionEnabled := true, pageTitles := [], authToken := some ""
          currentUser := none
          storage := ⟨none, none, none, none, none, none⟩ }).requestHeaders =
      [[("Content-Type", "application/json")]] ∧
    (some "" : Option String) ≠ none := by
  decide

/-- C8 (amended): the summarize calls carry
`Authorization: Bearer <token>` exactly when the Session Store token is a
non-empty string (JS truthiness) — non-null alone does not suffice.
(i) the header set of `summarizeHeaders` contains an Authorization entry
iff the token is truthy, and (ii) a truthy token yields exactly the
Content-Type and Bearer headers; (iii) `handleSummarizePage` sends its
first call with exactly these headers whenever a tab URL was obtained, and
(iv) `handleSummarizeHTML` sends its single call with them whenever html
content is present. -/
theorem C8_auth_header_truthiness :
    (∀ t : Option String, hasAuthHeader (summarizeHeaders t) = jsTruthy t) ∧
    (∀ x : String, x ≠ "" →
      summarizeHeaders (some x) =
        [("Content-Type", "application/json"), ("Authorization", "Bearer " ++ x)]) ∧
    (∀ (url : String) (f1 f2 : FetchOutcome SummarizeBody)
        (r : StorageReadOutcome) (s : BgState),
      (handleSummarizePage ⟨.found (some url), f1, f2, r⟩ s).requestHeaders.head? =
        some (summarizeHeaders s.authToken)) ∧
    (∀ (req : SummarizeHTMLRequest) (f : FetchOutcome SummarizeBody) (s : BgState),
      jsTruthy req.html = true →
      (handleSummarizeHTML req f s).requestHeaders = [summarizeHeaders s.authToken]) := by
  refine ⟨?_, ?_, ?_, ?_⟩
  · intro t
    cases t with
    | none => decide
    | some x =>
        by_cases hx : x = "" <;>
          simp [summarizeHeaders, hasAuthHeader, jsTruthy, hx]
  · intro x hx
    simp [summarizeHeaders, jsTruthy, hx]
  · intro url f1 f2 r s
    cases hstep : summarizeAttempt 0 f1 with
    | respond resp => simp [handleSummarizePage, hstep]
    | retryAfter401 =>
        cases hstep2 : summarizeAttempt 1 f2 with
        | respond resp => simp [handleSummarizePage, hstep, hstep2]
        | retryAfter401 => simp [handleSummarizePage, hstep, hstep2]
  · intro req f s hh
    simp [handleSummarizeHTML, hh]

/-- Witness for C8 (amended): the parts with hypotheses applied at the
token "tok" and a concrete html request. -/
theorem C8_auth_header_truthiness_witness :
    summarizeHeaders (some "tok") =
      [("Content-Type", "application/json"), ("Authorization", "Bearer " ++ "tok")] ∧
    (handleSummarizeHTML ⟨some "<p>x</p>", none, none⟩ (.networkError "e")
        initBgState).requestHeaders = [summarizeHeaders initBgState.authToken] :=
  ⟨C8_auth_header_truthiness.2.1 "tok" (by decide),
   C8_auth_header_truthiness.2.2.2 ⟨some "<p>x</p>", none, none⟩
     (.networkError "e") initBgState (by decide)⟩

/-- The response of a backend that stores preferences and returns the
stored values: ok JSON with `success: true` and the stored record. -/
def honestPrefsResponse (stored : PrefsRecord) : FetchOutcome PrefsBody :=
  .response 200 (some "application/json") ""
    (.ok { success := some true, error := none, preferences := some stored })

/-- The round trip of C9 against an honest backend holding `p0`: a load,
then a save of the modified record `pNew` (after which the backend holds
`pNew`), then another load answered from the updated backend. -/
def prefsRoundTrip (s : BgState) (p0 pNew : PrefsRecord) :
    HandlerTrace LoadResponse :=
  let load1 := loadUserPreferences (honestPrefsResponse p0) s
  let save2 := saveUserPreferences
    ⟨honestPrefsResponse pNew, honestPrefsResponse pNew, .ok⟩ load1.state
  loadUserPreferences (honestPrefsResponse pNew) save2.state

/-- C9 (confirmed): with a truthy token present and a backend that stores
preferences and returns the stored values, load — save modified — load
yields a final response whose preferences equal the camelCase mapping of
the modified snake_case record submitted in the save. -/
theorem C9_roundtrip (s : BgState) (p0 pNew : PrefsRecord)
    (hTok : jsTruthy s.authToken = true) :
    (prefsRoundTrip s p0 pNew).response =
      some { success := true, error := none
             preferences := some (prefsToCamel pNew) } := by
  simp [prefsRoundTrip, loadUserPreferences, saveUserPreferences,
    savePrefsAttempt, honestPrefsResponse, hTok, httpOk]

/-- Witness for C9: a concrete round trip from the authenticated initial
state, changing the summary style and toggles. -/
theorem C9_roundtrip_witness :
    (prefsRoundTrip
        { extensionEnabled := true, pageTitles := [], authToken := some "T"
          currentUser := some ⟨1, "a@b.c", "A"⟩
          storage := ⟨some true, some "T", some ⟨1, "a@b.c", "A"⟩, none, none, none⟩ }
        ⟨"quick", false, true, none, none⟩
        ⟨"detailed", true, false, some "skimmer", some "adult"⟩).response =
      some { success := true, error := none
             preferences := some (prefsToCamel
               ⟨"detailed", true, false, some "skimmer", some "adult"⟩) } :=
  C9_roundtrip
    { extensionEnabled := true, pageTitles := [], authToken := some "T"
      currentUser := some ⟨1, "a@b.c", "A"⟩
      storage := ⟨some true, some "T", some ⟨1, "a@b.c", "A"⟩, none, none, none⟩ }
    ⟨"quick", false, true, none, none⟩
    ⟨"detailed", true, false, some "skimmer", some "adult"⟩
    (by decide)

end Trace
